import Mathlib

/-!
Verification development for the open-meteo weather ETL pipeline
(`etl/extract.py`, `etl/transform.py`, `etl/load.py`).

The Python modules are shallowly embedded as executable Lean functions:

* the transform stage (`transform_data`, `load_existing_keys`, `append_rows`)
  acts on an explicit file-system state mapping CSV file names to their rows;
* the extract stage (`extract_data`, `interpret_weather_code`) is parametrised
  by the outcome of the per-city HTTP fetches (an external effect);
* the load stage (`upload_to_s3`) is parametrised by the outcome of each
  S3 upload call and by what the file system says about `clean_path`.

Timestamps taken from `datetime.now()` (snapshot file names, upload keys,
log timestamps) are abstracted: file names use fixed placeholder strings and
log rows omit the wall-clock column, since no property below depends on them.
-/

namespace ETL

/-- One audit-log row written by `log_etl_status` in `etl/extract.py`
(the wall-clock timestamp column is abstracted away). -/
structure LogEntry where
  raw_file : String
  clean_file : String
  status : String
  error_message : String
deriving Repr, DecidableEq

/-- One row of a per-city clean CSV file, as seen through `csv.DictReader` /
`csv.DictWriter`.  Every field is optional: `none` models a missing column
(`row.get(k)` returning `None`).  Rows written by `transform_data` always have
`city`, `date` and `time_ampm` present. -/
structure Row where
  city : Option String
  date : Option String
  time_ampm : Option String
  temperature_c : Option String
  humidity_percent : Option String
  conditions : Option String
  wind_speed_kmh : Option String
deriving Repr, DecidableEq

/-- One element of a city's `current_hourly_forecast_PKT` list in the raw
snapshot JSON.  `time_PKT = none` models a point object without that key
(`rec["time_PKT"]` raises `KeyError`, caught by the inner `except`); the
remaining fields model `rec.get(...)`, scalar values rendered as strings. -/
structure RawPoint where
  time_PKT : Option String
  temperature_c : Option String
  humidity_percent : Option String
  conditions : Option String
  wind_speed_kmh : Option String
deriving Repr, DecidableEq

/-- One element of the snapshot JSON list: `{"city": ..,
"current_hourly_forecast_PKT": [..]}`.  `city = none` models a missing or
null `city` key (`city_forecast.get("city")` returning `None`); a missing
forecast list is identified with the empty list (`.get(.., [])`). -/
structure CityForecast where
  city : Option String
  points : List RawPoint
deriving Repr, DecidableEq

/-! ### Timestamp parsing and formatting

`transform_data` parses `rec["time_PKT"]` with
`datetime.strptime(s, "%Y-%m-%dT%H:%M")` and re-formats the result with
`strftime("%Y-%m-%d")` and `strftime("%I:%M %p")`.  The parser below follows
CPython's `_strptime` regexes: `%Y` is exactly four digits, `%m`/`%d`/`%H`/`%M`
are one or two digits within their ranges, the whole string must be consumed,
and the resulting calendar date must be valid (`datetime` also rejects year 0).
-/

/-- Numeric value of a decimal digit character. -/
def digitVal (c : Char) : Nat := c.toNat - '0'.toNat

/-- Read a field that CPython's strptime matches as either two digits with
value in `[lo2, hi2]` or (backtracking) a single digit with value in
`[lo1, hi1]`.  Returns the value and the remaining characters. -/
def readFlex (lo2 hi2 lo1 hi1 : Nat) : List Char → Option (Nat × List Char)
  | c1 :: c2 :: rest =>
    if c1.isDigit then
      if c2.isDigit then
        let v := digitVal c1 * 10 + digitVal c2
        if lo2 ≤ v ∧ v ≤ hi2 then some (v, rest)
        else if lo1 ≤ digitVal c1 ∧ digitVal c1 ≤ hi1 then
          some (digitVal c1, c2 :: rest)
        else none
      else if lo1 ≤ digitVal c1 ∧ digitVal c1 ≤ hi1 then
        some (digitVal c1, c2 :: rest)
      else none
    else none
  | [c1] =>
    if c1.isDigit ∧ lo1 ≤ digitVal c1 ∧ digitVal c1 ≤ hi1 then
      some (digitVal c1, [])
    else none
  | [] => none

/-- Read exactly `n` decimal digits (strptime's `%Y`). -/
def readExactDigits : Nat → List Char → Option (Nat × List Char)
  | 0, cs => some (0, cs)
  | n + 1, c :: cs =>
    if c.isDigit then
      (readExactDigits n cs).map (fun vr => (digitVal c * 10 ^ n + vr.1, vr.2))
    else none
  | _ + 1, [] => none

/-- Expect a literal character. -/
def expectChar (c : Char) : List Char → Option (List Char)
  | c1 :: rest => if c1 = c then some rest else none
  | [] => none

/-- Gregorian leap-year rule used by `datetime`. -/
def isLeap (y : Nat) : Bool := (y % 4 = 0 ∧ y % 100 ≠ 0) ∨ y % 400 = 0

/-- Number of days in a month, as validated by `datetime`'s constructor. -/
def daysInMonth (y m : Nat) : Nat :=
  if m = 2 then (if isLeap y then 29 else 28)
  else if m = 4 ∨ m = 6 ∨ m = 9 ∨ m = 11 then 30
  else 31

/-- Model of `datetime.strptime(s, "%Y-%m-%dT%H:%M")`:
`some (year, month, day, hour, minute)` on success, `none` on `ValueError`. -/
def parseTimestamp (s : String) : Option (Nat × Nat × Nat × Nat × Nat) :=
  match readExactDigits 4 s.toList with
  | none => none
  | some (y, cs) =>
    match expectChar '-' cs with
    | none => none
    | some cs =>
      match readFlex 1 12 1 9 cs with
      | none => none
      | some (mo, cs) =>
        match expectChar '-' cs with
        | none => none
        | some cs =>
          match readFlex 1 31 1 9 cs with
          | none => none
          | some (d, cs) =>
            match expectChar 'T' cs with
            | none => none
            | some cs =>
              match readFlex 0 23 0 9 cs with
              | none => none
              | some (h, cs) =>
                match expectChar ':' cs with
                | none => none
                | some cs =>
                  match readFlex 0 59 0 9 cs with
                  | none => none
                  | some (mi, cs) =>
                    if cs = [] ∧ 1 ≤ y ∧ d ≤ daysInMonth y mo then
                      some (y, mo, d, h, mi)
                    else none

/-- Zero-pad a number to two digits (strftime `%m`, `%d`, `%I`, `%M`). -/
def pad2 (n : Nat) : String := if n < 10 then "0" ++ toString n else toString n

/-- Zero-pad a year to four digits (strftime `%Y`; parsed years always have
four digits, so the padding only matters for totality). -/
def pad4 (n : Nat) : String :=
  if n < 10 then "000" ++ toString n
  else if n < 100 then "00" ++ toString n
  else if n < 1000 then "0" ++ toString n
  else toString n

/-- Model of `dt.strftime("%Y-%m-%d")`. -/
def fmtDate (y mo d : Nat) : String := pad4 y ++ "-" ++ pad2 mo ++ "-" ++ pad2 d

/-- The 12-hour clock value of an hour (strftime `%I`). -/
def hour12 (h : Nat) : Nat := if h % 12 = 0 then 12 else h % 12

/-- Model of `dt.strftime("%I:%M %p")` (12-hour clock, zero-padded). -/
def fmtTime (h mi : Nat) : String :=
  pad2 (hour12 h) ++ ":" ++ pad2 mi ++ " " ++ (if h < 12 then "AM" else "PM")

/-! ### The transform stage (`etl/transform.py`) -/

/-- File-system state of the clean directory: CSV file name ↦ its data rows
(`none` = the file does not exist; the header row is implicit). -/
def FS : Type := String → Option (List Row)

/-- The rows of a file, reading a missing file as no rows. -/
def rowsAt (st : FS) (f : String) : List Row := (st f).getD []

/-- Overwrite one file's contents. -/
def setFile (st : FS) (f : String) (rows : List Row) : FS :=
  fun g => if g = f then some rows else st g

/-- The dedup key of a persisted row, as `load_existing_keys` computes it:
`tuple(row.get(k) for k in ['date', 'time_ampm'])`, kept only `if all(key)`
(both components present and non-empty, i.e. truthy). -/
def rowKeyIfTruthy (r : Row) : Option (String × String) :=
  match r.date, r.time_ampm with
  | some d, some t => if d ≠ "" ∧ t ≠ "" then some (d, t) else none
  | _, _ => none

/-- Model of `load_existing_keys(csv_path)`: the keys of the persisted rows
whose dedup columns are all truthy; a missing file yields no keys.  (Python
collects them in a `set`; a list with membership is equivalent.) -/
def load_existing_keys (o : Option (List Row)) : List (String × String) :=
  (o.getD []).filterMap rowKeyIfTruthy

/-- Model of `append_rows(csv_path, rows, headers)`: append in `'a'` mode,
creating the file (with its header) if absent. -/
def append_rows (o : Option (List Row)) (rows : List Row) : List Row :=
  o.getD [] ++ rows

/-- ASCII lower-casing of one character (`str.lower`; the repository's city
names and file names are ASCII). -/
def lowerChar (c : Char) : Char :=
  if 'A' ≤ c ∧ c ≤ 'Z' then Char.ofNat (c.toNat + 32) else c

/-- Model of `s.lower()` for ASCII strings. -/
def strLower (s : String) : String := String.mk (s.toList.map lowerChar)

/-- Model of `s.replace(' ', '_')`. -/
def underscoreSpaces (s : String) : String :=
  String.mk (s.toList.map (fun c => if c = ' ' then '_' else c))

/-- Model of `s.endswith(suf)`. -/
def strEndsWith (s suf : String) : Bool :=
  List.isSuffixOf suf.toList s.toList

/-- The clean CSV file name for a city:
`f"{city.replace(' ', '_').lower()}_weather.csv"`. -/
def cityFile (city : String) : String :=
  strLower (underscoreSpaces city) ++ "_weather.csv"

/-- Processing of one `rec` in `transform_data`'s inner loop: parse the
timestamp (dropping the point on failure), and build the dedup key together
with the row dict that would be appended. -/
def pointKeyRow (city : String) (p : RawPoint) :
    Option ((String × String) × Row) :=
  match p.time_PKT with
  | none => none
  | some ts =>
    match parseTimestamp ts with
    | none => none
    | some (y, mo, d, h, mi) =>
      let date := fmtDate y mo d
      let tam := fmtTime h mi
      some ((date, tam),
        { city := some city, date := some date, time_ampm := some tam,
          temperature_c := p.temperature_c,
          humidity_percent := p.humidity_percent,
          conditions := p.conditions,
          wind_speed_kmh := p.wind_speed_kmh })

/-- The `rows` list accumulated by `transform_data` for one city: points in
snapshot order, unparseable timestamps dropped, keys already in `existing`
skipped.  (The source never adds the new keys back into `existing`, so two
in-snapshot points with the same key are both kept.) -/
def newRows (existing : List (String × String)) (city : String) :
    List RawPoint → List Row
  | [] => []
  | p :: ps =>
    match pointKeyRow city p with
    | none => newRows existing city ps
    | some (k, r) =>
      if k ∈ existing then newRows existing city ps
      else r :: newRows existing city ps

/-- Error message of `None.replace(' ', '_')` when the `city` key is absent. -/
def attrErrMsg : String := "'NoneType' object has no attribute 'replace'"

/-- One iteration of `transform_data`'s `for city_forecast in data` loop:
look up the city's CSV, build the persisted key set, filter the points, and
append the surviving rows in a single write.  A missing city name raises
(`AttributeError`), which nothing inside the loop catches. -/
def transformCityStep (st : FS) (cf : CityForecast) : Except String FS :=
  match cf.city with
  | none => .error attrErrMsg
  | some city =>
    let f := cityFile city
    let existing := load_existing_keys (st f)
    let rows := newRows existing city cf.points
    if rows.isEmpty then .ok st
    else .ok (setFile st f (append_rows (st f) rows))

/-- Run the city loop over the whole snapshot.  On an exception the loop
stops; the first component is the propagated error (if any) and the second is
the file-system state reached so far (files already appended stay appended). -/
def runCities (st : FS) : List CityForecast → Option String × FS
  | [] => (none, st)
  | cf :: rest =>
    match transformCityStep st cf with
    | .ok st' => runCities st' rest
    | .error e => (some e, st)

/-- Outcome of one `transform_data` call: the propagated exception (if any),
the resulting file-system state, and the audit-log rows written. -/
structure TransformResult where
  err : Option String
  fs : FS
  logs : List LogEntry

/-- Placeholder for the `CLEAN_DIR` path constant. -/
def cleanDirName : String := "data/clean"

/-- Error message when the raw snapshot file cannot be read at all. -/
def readErrMsg : String := "cannot read snapshot file"

/-- Model of `transform_data(raw_file)`.  `raw = none` models an unreadable
snapshot file (`open`/`json.load` raising).  On success one SUCCESS audit row
is written; on any exception one FAILED row is written and the exception is
re-raised. -/
def transform_data (rawFile : String) (raw : Option (List CityForecast))
    (st : FS) : TransformResult :=
  match raw with
  | none => ⟨some readErrMsg, st, [⟨rawFile, "", "FAILED", readErrMsg⟩]⟩
  | some snapshot =>
    match runCities st snapshot with
    | (none, st') => ⟨none, st', [⟨rawFile, cleanDirName, "SUCCESS", ""⟩]⟩
    | (some e, st') => ⟨some e, st', [⟨rawFile, "", "FAILED", e⟩]⟩

/-- A sequence of `transform_data` runs (the per-run snapshot may also be
unreadable), tracking only the evolving clean-directory state. -/
def runMany (snaps : List (Option (List CityForecast))) (st : FS) : FS :=
  snaps.foldl (fun s raw => (transform_data "" raw s).fs) st

/-! ### The extract stage (`etl/extract.py`) -/

/-- Model of `interpret_weather_code(code)`: the source's if/elif chain
(`int(code)` is the identity on integer inputs). -/
def interpret_weather_code (code : Int) : String :=
  if code = 0 then "Clear sky"
  else if code = 1 then "Mostly clear"
  else if code = 2 then "Partly cloudy"
  else if code = 3 then "Overcast"
  else if code = 45 ∨ code = 48 then "Fog or Rime fog"
  else if 51 ≤ code ∧ code ≤ 55 then "Drizzle (Light to Dense)"
  else if 56 ≤ code ∧ code ≤ 57 then "Freezing Drizzle"
  else if 61 ≤ code ∧ code ≤ 65 then "Rain (Slight to Heavy)"
  else if 66 ≤ code ∧ code ≤ 67 then "Freezing Rain"
  else if 80 ≤ code ∧ code ≤ 82 then "Rain showers (Slight to Violent)"
  else if 85 ≤ code ∧ code ≤ 86 then "Snow showers (Slight to Heavy)"
  else if code = 95 then "Thunderstorm (Slight or Moderate)"
  else if 96 ≤ code ∧ code ≤ 99 then "Thunderstorm with hail"
  else "Conditions Varies (WMO Code " ++ toString code ++ ")"

/-- An ordered condition-decoding rule: a Boolean predicate over the raw code
and the label returned when it is the first rule to match. -/
def wmoRules : List ((Int → Bool) × String) :=
  [ (fun c => c == 0, "Clear sky"),
    (fun c => c == 1, "Mostly clear"),
    (fun c => c == 2, "Partly cloudy"),
    (fun c => c == 3, "Overcast"),
    (fun c => c == 45 || c == 48, "Fog or Rime fog"),
    (fun c => decide (51 ≤ c) && decide (c ≤ 55), "Drizzle (Light to Dense)"),
    (fun c => decide (56 ≤ c) && decide (c ≤ 57), "Freezing Drizzle"),
    (fun c => decide (61 ≤ c) && decide (c ≤ 65), "Rain (Slight to Heavy)"),
    (fun c => decide (66 ≤ c) && decide (c ≤ 67), "Freezing Rain"),
    (fun c => decide (80 ≤ c) && decide (c ≤ 82),
      "Rain showers (Slight to Violent)"),
    (fun c => decide (85 ≤ c) && decide (c ≤ 86),
      "Snow showers (Slight to Heavy)"),
    (fun c => c == 95, "Thunderstorm (Slight or Moderate)"),
    (fun c => decide (96 ≤ c) && decide (c ≤ 99), "Thunderstorm with hail") ]

/-- The fallback label for codes no rule matches, preserving the raw code. -/
def wmoFallback (c : Int) : String :=
  "Conditions Varies (WMO Code " ++ toString c ++ ")"

/-- First-match evaluation of an ordered rule list. -/
def firstMatch (rules : List ((Int → Bool) × String)) (fallback : Int → String)
    (c : Int) : String :=
  match rules with
  | [] => fallback c
  | (p, l) :: rs => if p c then l else firstMatch rs fallback c

/-- The parallel `hourly` arrays of one city's Open-Meteo response (field
values rendered as strings, the weather code kept numeric since
`interpret_weather_code` is applied to it). -/
structure HourlyData where
  time : List String
  temperature_2m : List String
  relative_humidity_2m : List String
  weather_code : List Int
  wind_speed_10m : List String
deriving Repr, DecidableEq

/-- Decoding of one city's response body inside `extract_data`'s `for i in
range(len(times))` loop.  A parallel array shorter than `times` raises
`IndexError` mid-loop; the per-city `except` then discards the whole city
(`all_cities_data.append` is never reached), so the city is skipped. -/
def decodeCity (city : String) (h : HourlyData) : Option CityForecast :=
  if h.temperature_2m.length < h.time.length ∨
     h.relative_humidity_2m.length < h.time.length ∨
     h.weather_code.length < h.time.length ∨
     h.wind_speed_10m.length < h.time.length then none
  else
    some ⟨some city,
      (List.range h.time.length).map (fun i =>
        { time_PKT := some (h.time.getD i ""),
          temperature_c := some (h.temperature_2m.getD i ""),
          humidity_percent := some (h.relative_humidity_2m.getD i ""),
          conditions := some (interpret_weather_code (h.weather_code.getD i 0)),
          wind_speed_kmh := some (h.wind_speed_10m.getD i "") })⟩

/-- The `PUNJAB_CITIES` keys, in dict (insertion) order. -/
def punjabCities : List String :=
  ["Lahore", "Faisalabad", "Rawalpindi", "Multan", "Sialkot", "Gujranwala",
   "Bahawalpur", "Rahim Yar Khan", "Dera Ghazi Khan", "Sahiwal", "Okara",
   "Kasur", "Sheikhupura", "Jhang", "Gujrat"]

/-- Placeholder for the timestamped snapshot path
`data/raw/punjab_weather_raw_{timestamp}.json`. -/
def rawFilePath : String := "data/raw/punjab_weather_raw_TS.json"

/-- Error message used when writing the snapshot file fails. -/
def persistErrMsg : String := "cannot write snapshot file"

/-- Outcome of one `extract_data` call: the propagated exception (if any),
the snapshot document written to disk (if any), the returned path, and the
audit-log rows written. -/
structure ExtractResult where
  err : Option String
  written : Option (List CityForecast)
  returnedPath : Option String
  logs : List LogEntry

/-- Model of `extract_data()`.  `fetch city = none` models that city's
request/decode raising inside the per-city `try` (network error, bad status,
malformed body): the city is skipped with only a `print`, no audit-log row.
`persistOk` models whether writing the snapshot file succeeds.  Note the
snapshot is written and SUCCESS is logged even when `all_cities_data` is
empty. -/
def extract_data (fetch : String → Option HourlyData) (persistOk : Bool) :
    ExtractResult :=
  let all_cities_data :=
    punjabCities.filterMap (fun c => (fetch c).bind (decodeCity c))
  if persistOk then
    ⟨none, some all_cities_data, some rawFilePath,
      [⟨rawFilePath, "", "SUCCESS", ""⟩]⟩
  else
    ⟨some persistErrMsg, none, none, [⟨"", "", "FAILED", persistErrMsg⟩]⟩

/-! ### The load stage (`etl/load.py`) -/

/-- `os.path.basename`: the part after the last `/`. -/
def baseName (p : String) : String :=
  String.mk ((p.toList.reverse.takeWhile (fun c => c ≠ '/')).reverse)

/-- The S3 object key built by `_upload_one_file`:
`f"{prefix}{timestamp}_{file_name}"`. -/
def s3Key (pref ts name : String) : String := pref ++ ts ++ "_" ++ name

/-- The URI returned by `_upload_one_file`: `f"s3://{bucket}/{key}"`. -/
def s3Uri (bucket key : String) : String := "s3://" ++ bucket ++ "/" ++ key

/-- Model of `_upload_one_file`: the `upload` parameter is the outcome of the
external `s3_client.upload_file` call (`false` = it raised one of the
exception types the caller catches). -/
def uploadOne (upload : String → Bool) (bucket pref ts p : String) :
    Option String :=
  if upload p then some (s3Uri bucket (s3Key pref ts (baseName p)))
  else none

/-- Audit message for a failed per-file upload. -/
def uploadFailMsg (p : String) : String := "S3 upload failed for " ++ p

/-- `upload_to_s3`'s per-file loop.  Returns the S3 URIs of the uploads that
were performed (the remote side effects, which survive a later exception),
the audit rows written, and the propagated exception (if any).  On the first
failing file a FAILED row is logged and the exception re-raised, so no later
path is attempted. -/
def uploadLoop (upload : String → Bool) (bucket pref ts : String) :
    List String → List String × List LogEntry × Option String
  | [] => ([], [], none)
  | p :: rest =>
    match uploadOne upload bucket pref ts p with
    | some uri =>
      let r := uploadLoop upload bucket pref ts rest
      (uri :: r.1, (⟨"", p, "SUCCESS", ""⟩ : LogEntry) :: r.2.1, r.2.2)
    | none =>
      ([], [⟨"", p, "FAILED", uploadFailMsg p⟩], some (uploadFailMsg p))

/-- What the file system says about `clean_path`: missing, a regular file, or
a directory with the given top-level entry names (`os.listdir`). -/
inductive PathInfo where
  | missing
  | file
  | dir (entries : List String)
deriving Repr, DecidableEq

/-- The configuration values `upload_to_s3` reads from `aws_config.yaml`:
the `s3` section's bucket name, the key name part coming before the timestamp (`clean_prefix`, with its
`"clean/"` default already applied), and whether the `aws` section's three credential fields are
all present (`_make_s3_client`'s check). -/
structure S3Settings where
  bucket_name : Option String
  cleanPref : String
  credsOk : Bool

/-- Message of the `ValueError` for a non-CSV file argument. -/
def notCsvMsg (p : String) : String := "Expected a .csv file, got: " ++ p

/-- Message of the `FileNotFoundError` when no CSV files were collected. -/
def noCsvMsg (p : String) : String := "No CSV files found to upload in: " ++ p

/-- Model of `upload_to_s3(clean_path)` (config already read; a YAML read
failure would raise before any of this runs).  Mirrors the source's order:
bucket check, credential check (both raise *without* logging), existence
check, CSV collection, then the per-file upload loop. -/
def upload_to_s3 (s : S3Settings) (upload : String → Bool) (ts : String)
    (cleanPath : String) (info : PathInfo) :
    List String × List LogEntry × Option String :=
  match s.bucket_name with
  | none => ([], [], some "ValueError: bucket_name missing in aws_config.yaml")
  | some bucket =>
    if ¬ s.credsOk then
      ([], [], some "ValueError: Incomplete AWS configuration")
    else
      match info with
      | .missing =>
        ([], [⟨"", cleanPath, "FAILED", "Path does not exist: " ++ cleanPath⟩],
         some ("FileNotFoundError: Path does not exist: " ++ cleanPath))
      | .file =>
        if strEndsWith (strLower cleanPath) ".csv" then
          uploadLoop upload bucket s.cleanPref ts [cleanPath]
        else
          ([], [⟨"", cleanPath, "FAILED", notCsvMsg cleanPath⟩],
           some ("ValueError: " ++ notCsvMsg cleanPath))
      | .dir entries =>
        let paths := (entries.filter (fun n => strEndsWith (strLower n) ".csv")).map
          (fun n => cleanPath ++ "/" ++ n)
        if paths.isEmpty then
          ([], [⟨"", cleanPath, "FAILED", noCsvMsg cleanPath⟩],
           some ("FileNotFoundError: " ++ noCsvMsg cleanPath))
        else uploadLoop upload bucket s.cleanPref ts paths

/-! ### Helper lemmas: the transform stage -/

theorem fmtDate_ne_empty (y mo d : Nat) : fmtDate y mo d ≠ "" := by
  intro h
  have h0 : (fmtDate y mo d).length = 0 := by rw [h]; rfl
  unfold fmtDate at h0
  rw [String.length_append, String.length_append, String.length_append,
    String.length_append] at h0
  have h1 : ("-" : String).length = 1 := rfl
  omega

theorem fmtTime_ne_empty (h mi : Nat) : fmtTime h mi ≠ "" := by
  intro he
  have h0 : (fmtTime h mi).length = 0 := by rw [he]; rfl
  unfold fmtTime at h0
  rw [String.length_append, String.length_append, String.length_append,
    String.length_append] at h0
  have h1 : (":" : String).length = 1 := rfl
  have h2 : (" " : String).length = 1 := rfl
  omega

/-- A row built by `transform_data`'s loop carries its dedup key in the
`date` / `time_ampm` columns, and both components are non-empty. -/
theorem pointKeyRow_fields {c : String} {p : RawPoint}
    {k : String × String} {r : Row} (h : pointKeyRow c p = some (k, r)) :
    r.date = some k.1 ∧ r.time_ampm = some k.2 ∧ k.1 ≠ "" ∧ k.2 ≠ "" := by
  unfold pointKeyRow at h
  cases hts : p.time_PKT with
  | none => rw [hts] at h; exact absurd h (by simp)
  | some ts =>
    rw [hts] at h
    dsimp only at h
    cases hp : parseTimestamp ts with
    | none => rw [hp] at h; exact absurd h (by simp)
    | some v =>
      obtain ⟨y, mo, d, hh, mi⟩ := v
      rw [hp] at h
      dsimp only at h
      simp only [Option.some.injEq, Prod.mk.injEq] at h
      obtain ⟨hk, hr⟩ := h
      subst hk
      subst hr
      exact ⟨rfl, rfl, fmtDate_ne_empty y mo d, fmtTime_ne_empty hh mi⟩

/-- The key of a freshly built row survives `load_existing_keys`'s
truthiness filter. -/
theorem rowKey_of_pointKeyRow {c : String} {p : RawPoint}
    {k : String × String} {r : Row} (h : pointKeyRow c p = some (k, r)) :
    rowKeyIfTruthy r = some k := by
  obtain ⟨hd, ht, hd0, ht0⟩ := pointKeyRow_fields h
  unfold rowKeyIfTruthy
  rw [hd, ht]
  simp [hd0, ht0]

theorem mem_load_existing_keys {o : Option (List Row)} {k : String × String} :
    k ∈ load_existing_keys o ↔ ∃ r ∈ o.getD [], rowKeyIfTruthy r = some k := by
  simp [load_existing_keys, List.mem_filterMap]

/-- Appending rows to a file never removes keys from its dedup key set. -/
theorem load_keys_mono {rows ext : List Row} {k : String × String}
    (h : k ∈ load_existing_keys (some rows)) :
    k ∈ load_existing_keys (some (rows ++ ext)) := by
  rw [mem_load_existing_keys] at h ⊢
  obtain ⟨r, hr, hk⟩ := h
  exact ⟨r, by simpa using List.mem_append_left ext (by simpa using hr), hk⟩

/-- `st'` extends `st`: every file's rows in `st'` are the rows in `st` plus
a (possibly empty) appended batch. -/
def stExt (st st' : FS) : Prop :=
  ∀ f, ∃ ext, rowsAt st' f = rowsAt st f ++ ext

theorem stExt_refl (st : FS) : stExt st st :=
  fun _ => ⟨[], (List.append_nil _).symm⟩

theorem stExt_trans {st1 st2 st3 : FS} (h12 : stExt st1 st2)
    (h23 : stExt st2 st3) : stExt st1 st3 := by
  intro f
  obtain ⟨e1, h1⟩ := h12 f
  obtain ⟨e2, h2⟩ := h23 f
  exact ⟨e1 ++ e2, by rw [h2, h1, List.append_assoc]⟩

theorem rowsAt_setFile_same (st : FS) (f : String) (rows : List Row) :
    rowsAt (setFile st f rows) f = rows := by
  simp [rowsAt, setFile]

theorem rowsAt_setFile_other (st : FS) {f g : String} (rows : List Row)
    (h : g ≠ f) : rowsAt (setFile st f rows) g = rowsAt st g := by
  simp [rowsAt, setFile, h]

/-- A successful city step only appends to files. -/
theorem stExt_step {st st' : FS} {cf : CityForecast}
    (h : transformCityStep st cf = .ok st') : stExt st st' := by
  unfold transformCityStep at h
  cases hc : cf.city with
  | none => rw [hc] at h; cases h
  | some c =>
    rw [hc] at h
    dsimp only at h
    split at h
    · cases h; exact stExt_refl _
    · cases h
      intro g
      by_cases hg : g = cityFile c
      · subst hg
        refine ⟨newRows (load_existing_keys (st (cityFile c))) c cf.points, ?_⟩
        rw [rowsAt_setFile_same]
        rfl
      · exact ⟨[], by rw [rowsAt_setFile_other st _ hg, List.append_nil]⟩

/-- The city loop only appends to files, whether or not it finishes. -/
theorem stExt_runCities (cfs : List CityForecast) (st : FS) :
    stExt st (runCities st cfs).2 := by
  induction cfs generalizing st with
  | nil => exact stExt_refl st
  | cons cf rest ih =>
    unfold runCities
    cases hstep : transformCityStep st cf with
    | ok st' => exact stExt_trans (stExt_step hstep) (ih st')
    | error e => exact stExt_refl st

/-- Keys present in a file survive any extension of the state. -/
theorem keys_mono_stExt {st st' : FS} (h : stExt st st') {f : String}
    {k : String × String} (hk : k ∈ load_existing_keys (st f)) :
    k ∈ load_existing_keys (st' f) := by
  obtain ⟨ext, he⟩ := h f
  have h1 : k ∈ load_existing_keys (some (rowsAt st f)) := by
    rw [mem_load_existing_keys] at hk ⊢
    simpa [rowsAt] using hk
  have h2 : k ∈ load_existing_keys (some (rowsAt st f ++ ext)) :=
    load_keys_mono h1
  rw [← he] at h2
  rw [mem_load_existing_keys] at h2 ⊢
  simpa [rowsAt] using h2

/-- If the loop produced no row for a city, every parseable point's key was
already persisted. -/
theorem mem_existing_of_newRows_nil {ex : List (String × String)} {c : String}
    {pts : List RawPoint} (h : newRows ex c pts = []) :
    ∀ p ∈ pts, ∀ k r, pointKeyRow c p = some (k, r) → k ∈ ex := by
  revert h
  induction pts with
  | nil => intro _ p hp; cases hp
  | cons q qs ih =>
    intro h p hp k r hkr
    unfold newRows at h
    cases hq : pointKeyRow c q with
    | none =>
      rw [hq] at h
      rcases List.mem_cons.mp hp with hp | hp
      · subst hp; rw [hq] at hkr; cases hkr
      · exact ih h p hp k r hkr
    | some kr =>
      rw [hq] at h
      dsimp only at h
      split at h
      · rcases List.mem_cons.mp hp with hp | hp
        · subst hp
          rw [hq] at hkr
          cases hkr
          assumption
        · exact ih h p hp k r hkr
      · cases h

/-- Conversely, if every parseable point's key is already persisted, the loop
produces no row. -/
theorem newRows_nil_of_mem {ex : List (String × String)} {c : String}
    {pts : List RawPoint}
    (h : ∀ p ∈ pts, ∀ k r, pointKeyRow c p = some (k, r) → k ∈ ex) :
    newRows ex c pts = [] := by
  revert h
  induction pts with
  | nil => intro _; rfl
  | cons q qs ih =>
    intro h
    unfold newRows
    cases hq : pointKeyRow c q with
    | none => exact ih (fun p hp => h p (List.mem_cons_of_mem q hp))
    | some kr =>
      dsimp only
      have hk : kr.1 ∈ ex := h q (List.mem_cons_self q qs) kr.1 kr.2 (by rw [hq])
      rw [if_pos hk]
      exact ih (fun p hp => h p (List.mem_cons_of_mem q hp))

/-- A parseable point whose key is not yet persisted gets its row queued. -/
theorem mem_newRows_of_not_mem {ex : List (String × String)} {c : String}
    {pts : List RawPoint} {p : RawPoint} {k : String × String} {r : Row}
    (hk : k ∉ ex) (hp : p ∈ pts) (h : pointKeyRow c p = some (k, r)) :
    r ∈ newRows ex c pts := by
  revert hp
  induction pts with
  | nil => intro hp; cases hp
  | cons q qs ih =>
    intro hp
    unfold newRows
    rcases List.mem_cons.mp hp with hp' | hp'
    · subst hp'
      rw [h]
      dsimp only
      rw [if_neg hk]
      exact List.mem_cons_self r _
    · cases hq : pointKeyRow c q with
      | none => exact ih hp'
      | some kr =>
        obtain ⟨k1, r1⟩ := kr
        dsimp only
        split
        · exact ih hp'
        · exact List.mem_cons_of_mem r1 (ih hp')

/-- All dedup keys a city's points can produce are already persisted in the
city's CSV file in state `st` (and the city name is present). -/
def allKeysDone (st : FS) (cf : CityForecast) : Prop :=
  ∃ c, cf.city = some c ∧
    ∀ p ∈ cf.points, ∀ k r, pointKeyRow c p = some (k, r) →
      k ∈ load_existing_keys (st (cityFile c))

/-- A city step on a state that already holds all of the city's keys is the
identity. -/
theorem step_id_of_done {st : FS} {cf : CityForecast}
    (h : allKeysDone st cf) : transformCityStep st cf = .ok st := by
  obtain ⟨c, hc, hkeys⟩ := h
  unfold transformCityStep
  rw [hc]
  dsimp only
  rw [newRows_nil_of_mem hkeys]
  rfl

/-- After a successful city step, every key the city's points produce is
persisted in the city's file. -/
theorem step_achieves {st st' : FS} {cf : CityForecast} {c : String}
    (hc : cf.city = some c) (h : transformCityStep st cf = .ok st') :
    ∀ p ∈ cf.points, ∀ k r, pointKeyRow c p = some (k, r) →
      k ∈ load_existing_keys (st' (cityFile c)) := by
  intro p hp k r hkr
  unfold transformCityStep at h
  rw [hc] at h
  dsimp only at h
  split at h
  case isTrue hrows =>
    cases h
    exact mem_existing_of_newRows_nil (List.isEmpty_iff.mp hrows) p hp k r hkr
  case isFalse hrows =>
    cases h
    by_cases hmem : k ∈ load_existing_keys (st (cityFile c))
    · have h1 : k ∈ load_existing_keys
          (some (rowsAt st (cityFile c) ++
            newRows (load_existing_keys (st (cityFile c))) c cf.points)) := by
        apply load_keys_mono
        rw [mem_load_existing_keys] at hmem ⊢
        simpa [rowsAt] using hmem
      rw [mem_load_existing_keys] at h1 ⊢
      simpa [setFile, append_rows, rowsAt] using h1
    · have hrmem := mem_newRows_of_not_mem hmem hp hkr
      rw [mem_load_existing_keys]
      refine ⟨r, ?_, rowKey_of_pointKeyRow hkr⟩
      simp only [setFile, if_pos rfl, append_rows, Option.getD_some]
      exact List.mem_append_right _ hrmem

/-- After a fully successful run, every city in the snapshot has all its keys
persisted in the final state. -/
theorem runCities_done {cfs : List CityForecast} {st stF : FS}
    (h : runCities st cfs = (none, stF)) : ∀ cf ∈ cfs, allKeysDone stF cf := by
  revert st
  induction cfs with
  | nil => intro st _ cf hcf; cases hcf
  | cons cf0 rest ih =>
    intro st h cf hcf
    cases hstep : transformCityStep st cf0 with
    | error e => simp only [runCities, hstep] at h; simp at h
    | ok st1 =>
      simp only [runCities, hstep] at h
      rcases List.mem_cons.mp hcf with hcf' | hcf'
      · subst hcf'
        cases hc : cf.city with
        | none =>
          exfalso
          unfold transformCityStep at hstep
          rw [hc] at hstep
          cases hstep
        | some c =>
          refine ⟨c, hc, fun p hp k r hkr => ?_⟩
          have h1 := step_achieves hc hstep p hp k r hkr
          have hext : stExt st1 stF := by
            have := stExt_runCities rest st1
            rw [h] at this
            exact this
          exact keys_mono_stExt hext h1
      · exact ih h cf hcf'

/-- Running the city loop on a state that already holds every city's keys
changes nothing and succeeds. -/
theorem runCities_id_of_done {cfs : List CityForecast} {st : FS}
    (h : ∀ cf ∈ cfs, allKeysDone st cf) : runCities st cfs = (none, st) := by
  induction cfs with
  | nil => rfl
  | cons cf rest ih =>
    have hstep := step_id_of_done (h cf (List.mem_cons_self cf rest))
    simp only [runCities, hstep]
    exact ih (fun cf' hcf' => h cf' (List.mem_cons_of_mem cf hcf'))

/-- A city whose name is present never raises, so a run over such cities
finishes. -/
theorem runCities_ok_of_all_some {cfs : List CityForecast} {st : FS}
    (h : ∀ cf ∈ cfs, cf.city.isSome) : (runCities st cfs).1 = none := by
  revert st
  induction cfs with
  | nil => intro st; rfl
  | cons cf rest ih =>
    intro st
    have hc := h cf (List.mem_cons_self cf rest)
    cases hstep : transformCityStep st cf with
    | error e =>
      exfalso
      unfold transformCityStep at hstep
      cases hcc : cf.city with
      | none => rw [hcc] at hc; simp at hc
      | some c =>
        rw [hcc] at hstep
        dsimp only at hstep
        split at hstep <;> cases hstep
    | ok st1 =>
      simp only [runCities, hstep]
      exact ih (fun cf' hcf' => h cf' (List.mem_cons_of_mem cf hcf'))

/-- Splitting a run at a list split point. -/
theorem runCities_append (xs ys : List CityForecast) (st : FS) :
    runCities st (xs ++ ys) =
      match runCities st xs with
      | (none, st') => runCities st' ys
      | (some e, st') => (some e, st') := by
  revert st
  induction xs with
  | nil => intro st; rfl
  | cons cf rest ih =>
    intro st
    show runCities st (cf :: (rest ++ ys)) = _
    cases hstep : transformCityStep st cf with
    | ok st1 =>
      simp only [runCities, hstep]
      exact ih st1
    | error e => simp only [runCities, hstep]

/-- The per-city rows are exactly the order-preserving filter of the city's
points: parseable, and key not among the keys persisted before the run. -/
theorem newRows_eq_filterMap (ex : List (String × String)) (c : String)
    (pts : List RawPoint) :
    newRows ex c pts =
      ((pts.filterMap (pointKeyRow c)).filter
        (fun kr => decide (kr.1 ∉ ex))).map Prod.snd := by
  induction pts with
  | nil => rfl
  | cons p ps ih =>
    unfold newRows
    cases hp : pointKeyRow c p with
    | none => simpa [List.filterMap_cons, hp] using ih
    | some kr =>
      obtain ⟨k, r⟩ := kr
      dsimp only
      by_cases hk : k ∈ ex
      · simp [List.filterMap_cons, hp, List.filter_cons, hk, ih]
      · simp [List.filterMap_cons, hp, List.filter_cons, hk, ih]

/-- Closed form of the city loop on a single-city snapshot. -/
theorem runCities_single (st : FS) (city : String) (pts : List RawPoint) :
    runCities st [⟨some city, pts⟩] =
      (none,
        if (newRows (load_existing_keys (st (cityFile city))) city pts).isEmpty
        then st
        else setFile st (cityFile city)
          (append_rows (st (cityFile city))
            (newRows (load_existing_keys (st (cityFile city))) city pts))) := by
  by_cases hemp :
      (newRows (load_existing_keys (st (cityFile city))) city pts).isEmpty
  · rw [if_pos hemp]
    have hstep : transformCityStep st ⟨some city, pts⟩ = .ok st := by
      simp only [transformCityStep]
      rw [if_pos hemp]
    simp only [runCities, hstep]
  · rw [if_neg hemp]
    have hstep : transformCityStep st ⟨some city, pts⟩ =
        .ok (setFile st (cityFile city)
          (append_rows (st (cityFile city))
            (newRows (load_existing_keys (st (cityFile city))) city pts))) := by
      simp only [transformCityStep]
      rw [if_neg hemp]
    simp only [runCities, hstep]

/-- One `transform_data` call only appends to files, even when it raises. -/
theorem stExt_transform (rawFile : String) (raw : Option (List CityForecast))
    (st : FS) : stExt st (transform_data rawFile raw st).fs := by
  cases raw with
  | none => exact stExt_refl st
  | some snap =>
    have h := stExt_runCities snap st
    cases hrun : runCities st snap with
    | mk e stF =>
      rw [hrun] at h
      cases e with
      | none => simpa only [transform_data, hrun] using h
      | some e0 => simpa only [transform_data, hrun] using h

/-- A whole sequence of runs only appends to files. -/
theorem stExt_runMany (snaps : List (Option (List CityForecast))) (st : FS) :
    stExt st (runMany snaps st) := by
  revert st
  induction snaps with
  | nil => intro st; exact stExt_refl st
  | cons raw rest ih =>
    intro st
    exact stExt_trans (stExt_transform "" raw st)
      (ih ((transform_data "" raw st).fs))

/-! ### Claim C1: re-running `transform_data` on the same snapshot is a no-op -/

/-- **C1** (confirmed).  For every raw snapshot and every prior state of the
per-city CSV datasets, if a `transform_data` run completed (raised no
exception), running it again on the same snapshot raises no exception and
leaves every city's dataset byte-identical (zero new rows anywhere): the
dedup key set rebuilt from the persisted datasets now contains every key the
snapshot can produce. -/
theorem transform_data_idempotent (rawFile : String)
    (snapshot : List CityForecast) (st : FS)
    (h : (transform_data rawFile (some snapshot) st).err = none) :
    (transform_data rawFile (some snapshot)
        (transform_data rawFile (some snapshot) st).fs).err = none ∧
    (transform_data rawFile (some snapshot)
        (transform_data rawFile (some snapshot) st).fs).fs =
      (transform_data rawFile (some snapshot) st).fs := by
  cases hrun : runCities st snapshot with
  | mk e stF =>
    cases e with
    | some e0 =>
      exfalso
      simp only [transform_data, hrun] at h
      cases h
    | none =>
      have hfs : (transform_data rawFile (some snapshot) st).fs = stF := by
        simp only [transform_data, hrun]
      have hrun2 : runCities stF snapshot = (none, stF) :=
        runCities_id_of_done (runCities_done hrun)
      have heq : transform_data rawFile (some snapshot) stF =
          ⟨none, stF, [⟨rawFile, cleanDirName, "SUCCESS", ""⟩]⟩ := by
        simp only [transform_data, hrun2]
      rw [hfs, heq]
      exact ⟨rfl, rfl⟩

/-- The fixed test snapshot: one city, two distinct-key points. -/
def pointA : RawPoint :=
  ⟨some "2025-01-01T09:00", some "20.5", some "55", some "Clear sky",
   some "10.2"⟩

def pointB : RawPoint :=
  ⟨some "2025-01-01T10:00", some "21.0", some "50", some "Overcast",
   some "8.0"⟩

def multanSnapshot : List CityForecast := [⟨some "Multan", [pointA, pointB]⟩]

/-- The empty clean directory. -/
def emptyFS : FS := fun _ => none

/-- Witness for C1: a first run on a concrete snapshot over an empty clean
directory completes, and the second run changes nothing. -/
theorem transform_data_idempotent_witness :
    (transform_data "raw.json" (some multanSnapshot) emptyFS).err = none ∧
    ((transform_data "raw.json" (some multanSnapshot)
        (transform_data "raw.json" (some multanSnapshot) emptyFS).fs).err =
      none ∧
     (transform_data "raw.json" (some multanSnapshot)
        (transform_data "raw.json" (some multanSnapshot) emptyFS).fs).fs =
      (transform_data "raw.json" (some multanSnapshot) emptyFS).fs) :=
  ⟨rfl, transform_data_idempotent "raw.json" multanSnapshot emptyFS rfl⟩

/-! ### Claim C2: in-run duplicate keys -/

/-- Two points of one snapshot with the same `(date, time-of-day)` key
(conditions decoded from codes 0 and 3). -/
def dupPointA : RawPoint :=
  ⟨some "2025-01-01T09:00", some "20", some "50", some "Clear sky", some "10"⟩

def dupPointB : RawPoint :=
  ⟨some "2025-01-01T09:00", some "21", some "55", some "Overcast", some "12"⟩

def dupSnapshot : List CityForecast := [⟨some "Lahore", [dupPointA, dupPointB]⟩]

def dupRowA : Row :=
  ⟨some "Lahore", some "2025-01-01", some "09:00 AM", some "20", some "50",
   some "Clear sky", some "10"⟩

def dupRowB : Row :=
  ⟨some "Lahore", some "2025-01-01", some "09:00 AM", some "21", some "55",
   some "Overcast", some "12"⟩

/-- **C2** (counterexample).  The claim says a snapshot holding two points
with the same dedup key yields *exactly one* appended row.  In fact
`transform_data` never adds the keys of this run's queued rows to the skip
set, so both points are appended: on an empty dataset the Lahore file ends
with two rows carrying the same `(2025-01-01, 09:00 AM)` key. -/
theorem transform_inrun_dup_counterexample :
    (transform_data "raw.json" (some dupSnapshot) emptyFS).fs
        (cityFile "Lahore") = some [dupRowA, dupRowB] ∧
    dupRowA.date = dupRowB.date ∧ dupRowA.time_ampm = dupRowB.time_ampm ∧
    dupRowA.conditions = some "Clear sky" ∧
    dupRowB.conditions = some "Overcast" :=
  ⟨rfl, rfl, rfl, rfl, rfl⟩

/-- **C2** (amended, proved).  A single `transform_data` run deduplicates
only against the keys persisted *before* the run: for a single-city snapshot
the appended batch is exactly the snapshot-ordered list of parseable points
whose key is not in the pre-run persisted key set.  Points of the same run
are not deduplicated against each other, so n same-key points yield n rows
(first-seen order is preserved but nothing is dropped). -/
theorem transform_no_inrun_dedup (rawFile city : String)
    (pts : List RawPoint) (st : FS) :
    rowsAt (transform_data rawFile (some [⟨some city, pts⟩]) st).fs
        (cityFile city) =
      rowsAt st (cityFile city) ++
        ((pts.filterMap (pointKeyRow city)).filter
          (fun kr =>
            decide (kr.1 ∉ load_existing_keys (st (cityFile city))))).map
          Prod.snd ∧
    (transform_data rawFile (some [⟨some city, pts⟩]) st).err = none := by
  have hrows := newRows_eq_filterMap
    (load_existing_keys (st (cityFile city))) city pts
  rw [← hrows]
  have h1 := runCities_single st city pts
  have heq : transform_data rawFile (some [⟨some city, pts⟩]) st =
      ⟨none,
        if (newRows (load_existing_keys (st (cityFile city))) city
            pts).isEmpty
        then st
        else setFile st (cityFile city)
          (append_rows (st (cityFile city))
            (newRows (load_existing_keys (st (cityFile city))) city pts)),
        [⟨rawFile, cleanDirName, "SUCCESS", ""⟩]⟩ := by
    simp only [transform_data, h1]
  rw [heq]
  refine ⟨?_, rfl⟩
  dsimp only
  split
  case isTrue hemp =>
    rw [List.isEmpty_iff.mp hemp, List.append_nil]
  case isFalse hemp =>
    rw [rowsAt_setFile_same]
    rfl

/-! ### Claim C3: no per-entity isolation in the Reconciler -/

/-- A snapshot entry whose `city` key is absent. -/
def badCityEntry : CityForecast := ⟨none, []⟩

/-- A two-city snapshot in which the first city fails (missing name) and the
second is well-formed. -/
def isolationSnapshot : List CityForecast :=
  [badCityEntry, ⟨some "Multan", [pointA]⟩]

/-- **C3** (counterexample).  The claim says a failing city must not prevent
the remaining cities from being reconciled, and the stage fails only when the
snapshot is unreadable.  On this readable snapshot the first entry's missing
city name raises, `transform_data` aborts and re-raises, and Multan's
perfectly good point is never appended (its dataset does not even get
created). -/
theorem transform_isolation_counterexample :
    (transform_data "raw.json" (some isolationSnapshot) emptyFS).err =
      some attrErrMsg ∧
    (transform_data "raw.json" (some isolationSnapshot) emptyFS).fs
      (cityFile "Multan") = none ∧
    (transform_data "raw.json" (some isolationSnapshot) emptyFS).logs =
      [⟨"raw.json", "", "FAILED", attrErrMsg⟩] :=
  ⟨rfl, rfl, rfl⟩

/-- **C3** (amended, proved).  There is no per-city exception handling in
`transform_data`: the first city that fails (here: missing city name) aborts
the whole run.  Cities processed before it keep their appended rows (the
final state is exactly the state after the good cities), the failing city and
every later city are not reconciled, one FAILED audit row is written and the
exception propagates.  An unreadable snapshot likewise fails the stage. -/
theorem transform_abort_on_city_failure (rawFile : String)
    (good : List CityForecast) (bad : CityForecast)
    (rest : List CityForecast) (st : FS)
    (hg : ∀ cf ∈ good, cf.city.isSome) (hb : bad.city = none) :
    (transform_data rawFile (some (good ++ bad :: rest)) st).err =
      some attrErrMsg ∧
    (transform_data rawFile (some (good ++ bad :: rest)) st).fs =
      (runCities st good).2 ∧
    (transform_data rawFile (some (good ++ bad :: rest)) st).logs =
      [⟨rawFile, "", "FAILED", attrErrMsg⟩] ∧
    (transform_data rawFile none st).err = some readErrMsg := by
  have h1 : (runCities st good).1 = none := runCities_ok_of_all_some hg
  have h2 : runCities st good = (none, (runCities st good).2) := by
    rw [← h1]
  have hstep : transformCityStep ((runCities st good).2) bad =
      .error attrErrMsg := by
    unfold transformCityStep
    rw [hb]
  have h4 : runCities ((runCities st good).2) (bad :: rest) =
      (some attrErrMsg, (runCities st good).2) := by
    simp only [runCities, hstep]
  have h3 := runCities_append good (bad :: rest) st
  rw [h2] at h3
  dsimp only at h3
  rw [h4] at h3
  have heq : transform_data rawFile (some (good ++ bad :: rest)) st =
      ⟨some attrErrMsg, (runCities st good).2,
        [⟨rawFile, "", "FAILED", attrErrMsg⟩]⟩ := by
    simp only [transform_data, h3]
  rw [heq]
  exact ⟨rfl, rfl, rfl, rfl⟩

def goodCitiesW : List CityForecast := [⟨some "Lahore", [dupPointA]⟩]

def restCitiesW : List CityForecast := [⟨some "Multan", [pointA]⟩]

/-- Witness for the amended C3 at a concrete snapshot: Lahore (before the
failing entry) is appended, the failing entry aborts, Multan is skipped. -/
theorem transform_abort_on_city_failure_witness :
    (∀ cf ∈ goodCitiesW, cf.city.isSome) ∧ badCityEntry.city = none ∧
    ((transform_data "raw.json"
        (some (goodCitiesW ++ badCityEntry :: restCitiesW)) emptyFS).err =
      some attrErrMsg ∧
     (transform_data "raw.json"
        (some (goodCitiesW ++ badCityEntry :: restCitiesW)) emptyFS).fs =
      (runCities emptyFS goodCitiesW).2 ∧
     (transform_data "raw.json"
        (some (goodCitiesW ++ badCityEntry :: restCitiesW)) emptyFS).logs =
      [⟨"raw.json", "", "FAILED", attrErrMsg⟩] ∧
     (transform_data "raw.json" none emptyFS).err = some readErrMsg) :=
  ⟨by decide, rfl,
   transform_abort_on_city_failure "raw.json" goodCitiesW badCityEntry
     restCitiesW emptyFS (by decide) rfl⟩

/-! ### Claim C7: datasets are append-only across runs -/

/-- **C7** (confirmed).  Over any sequence of `transform_data` runs, every
city's CSV only grows at the end: the old rows reappear unchanged, in place
and in order, as the prefix of the new contents (so nothing is altered,
removed or reordered), and the row count never decreases. -/
theorem transform_append_only (snaps : List (Option (List CityForecast)))
    (st : FS) (f : String) :
    (∃ ext, rowsAt (runMany snaps st) f = rowsAt st f ++ ext) ∧
    (rowsAt (runMany snaps st) f).take (rowsAt st f).length = rowsAt st f ∧
    (rowsAt st f).length ≤ (rowsAt (runMany snaps st) f).length := by
  obtain ⟨ext, hext⟩ := stExt_runMany snaps st f
  refine ⟨⟨ext, hext⟩, ?_, ?_⟩
  · rw [hext, List.take_left]
  · rw [hext, List.length_append]
    exact Nat.le_add_right _ _

/-! ### Claim C4: extract_data does not fail on zero decoded entities -/

/-- **C4** (counterexample).  The claim says `extract_data` raises (and logs
FAILED) when zero entities could be decoded.  When every per-city request
fails, the code instead writes a snapshot containing the empty list, logs
SUCCESS, and returns the path: there is no zero-entities check. -/
theorem extract_zero_entities_counterexample :
    (extract_data (fun _ => none) true).err = none ∧
    (extract_data (fun _ => none) true).written = some [] ∧
    (extract_data (fun _ => none) true).returnedPath = some rawFilePath ∧
    (extract_data (fun _ => none) true).logs =
      [⟨rawFilePath, "", "SUCCESS", ""⟩] :=
  ⟨rfl, rfl, rfl, rfl⟩

/-- **C4** (amended, proved).  `extract_data` raises (and logs FAILED) if and
only if persisting the snapshot file fails; the per-city fetch outcomes are
irrelevant to the stage verdict.  Whatever the fetches did, with persistence
working it writes the decoded (possibly empty) snapshot, logs SUCCESS and
returns the path; with persistence broken it logs FAILED and raises. -/
theorem extract_data_fails_iff_persist_fails
    (fetch : String → Option HourlyData) :
    ((extract_data fetch true).err = none ∧
     (extract_data fetch true).written =
       some (punjabCities.filterMap (fun c => (fetch c).bind (decodeCity c))) ∧
     (extract_data fetch true).returnedPath = some rawFilePath ∧
     (extract_data fetch true).logs = [⟨rawFilePath, "", "SUCCESS", ""⟩]) ∧
    ((extract_data fetch false).err = some persistErrMsg ∧
     (extract_data fetch false).written = none ∧
     (extract_data fetch false).logs = [⟨"", "", "FAILED", persistErrMsg⟩]) :=
  ⟨⟨rfl, rfl, rfl, rfl⟩, rfl, rfl, rfl⟩

/-! ### Claim C5: condition-code decoding -/

/-- First-match evaluation skips a rule list none of whose rules match. -/
theorem firstMatch_eq_fallback {rules : List ((Int → Bool) × String)}
    {fallback : Int → String} {c : Int} (h : ∀ r ∈ rules, r.1 c = false) :
    firstMatch rules fallback c = fallback c := by
  induction rules with
  | nil => rfl
  | cons r rs ih =>
    obtain ⟨p, l⟩ := r
    have hr : p c = false := h (p, l) (List.mem_cons_self _ rs)
    unfold firstMatch
    rw [if_neg (by simp [hr])]
    exact ih (fun r' hr' => h r' (List.mem_cons_of_mem (p, l) hr'))

/-- **C5** (confirmed).  `interpret_weather_code` is first-match evaluation
of the fixed, ordered rule list `wmoRules` (exact-code rules listed before the
numeric ranges, as in the source's if/elif chain); code 66 (and 67) decodes
to "Freezing Rain"; a code matching no rule (such as 200) yields the fallback
label, which embeds the literal raw code. -/
theorem interpret_weather_code_spec :
    (∀ c : Int, interpret_weather_code c = firstMatch wmoRules wmoFallback c) ∧
    interpret_weather_code 66 = "Freezing Rain" ∧
    interpret_weather_code 67 = "Freezing Rain" ∧
    interpret_weather_code 200 = "Conditions Varies (WMO Code 200)" ∧
    (∀ c : Int, (∀ r ∈ wmoRules, r.1 c = false) →
      interpret_weather_code c = wmoFallback c) ∧
    (∀ c : Int, ∃ pre post, wmoFallback c = pre ++ toString c ++ post) := by
  have hmain : ∀ c : Int,
      interpret_weather_code c = firstMatch wmoRules wmoFallback c := by
    intro c
    simp only [wmoRules, firstMatch, interpret_weather_code, wmoFallback,
      beq_iff_eq, Bool.or_eq_true, Bool.and_eq_true, decide_eq_true_eq]
  refine ⟨hmain, rfl, rfl, rfl, ?_, ?_⟩
  · intro c h
    rw [hmain c]
    exact firstMatch_eq_fallback h
  · intro c
    exact ⟨"Conditions Varies (WMO Code ", ")", rfl⟩

/-- Witness for C5: code 200 matches none of the rules, and its label is the
fallback label carrying the raw code. -/
theorem interpret_weather_code_spec_witness :
    (∀ r ∈ wmoRules, r.1 200 = false) ∧
    interpret_weather_code 200 = wmoFallback 200 :=
  ⟨by decide, interpret_weather_code_spec.2.2.2.2.1 200 (by decide)⟩

/-! ### Claim C6: failure logging policy -/

/-- An hourly payload with no data points at all. -/
def emptyHourly : HourlyData := ⟨[], [], [], [], []⟩

/-- Fetch outcomes in which exactly Lahore's request fails. -/
def lahoreFailFetch : String → Option HourlyData :=
  fun c => if c = "Lahore" then none else some emptyHourly

/-- **C6** (counterexample).  The claim says every per-item failure produces
an audit-log row before propagation.  A failed per-city fetch in
`extract_data` is a per-item failure, yet the audit log of the run holds no
FAILED row at all — only the final stage-level SUCCESS row (the failure is
merely printed to stdout). -/
theorem extract_fetch_failure_unlogged_counterexample :
    lahoreFailFetch "Lahore" = none ∧
    (extract_data lahoreFailFetch true).logs =
      [⟨rawFilePath, "", "SUCCESS", ""⟩] ∧
    ((extract_data lahoreFailFetch true).logs.filter
      (fun e => e.status == "FAILED")) = [] :=
  ⟨rfl, rfl, rfl⟩

/-- **C6** (amended, proved).  (i) A failed per-city fetch in `extract_data`
leaves no audit-log row: the run's log output is the single stage SUCCESS
row whatever the fetch outcomes.  (ii) A point whose timestamp fails to
parse is silently dropped by `transform_data`: removing it from the snapshot
changes nothing (no row, no log, no abort).  (iii) A stage-fatal failure of
`transform_data` (unreadable snapshot) does log one FAILED row before the
exception propagates. -/
theorem failure_logging_policy (fetch : String → Option HourlyData)
    (ex : List (String × String)) (c : String)
    (pts1 pts2 : List RawPoint) (p : RawPoint) (st : FS)
    (hp : pointKeyRow c p = none) :
    (extract_data fetch true).logs = [⟨rawFilePath, "", "SUCCESS", ""⟩] ∧
    newRows ex c (pts1 ++ p :: pts2) = newRows ex c (pts1 ++ pts2) ∧
    (transform_data "f" none st).logs = [⟨"f", "", "FAILED", readErrMsg⟩] := by
  refine ⟨rfl, ?_, rfl⟩
  induction pts1 with
  | nil =>
    simp only [List.nil_append, newRows, hp]
  | cons q qs ih =>
    show newRows ex c (q :: (qs ++ p :: pts2)) =
      newRows ex c (q :: (qs ++ pts2))
    unfold newRows
    cases hq : pointKeyRow c q with
    | none => exact ih
    | some kr =>
      obtain ⟨k, r⟩ := kr
      dsimp only
      split
      · exact ih
      · rw [ih]

/-- A point whose `time_PKT` is not a parseable timestamp. -/
def badTimePoint : RawPoint :=
  ⟨some "not-a-timestamp", some "1", some "2", some "x", some "3"⟩

/-- Witness for the amended C6 at concrete inputs. -/
theorem failure_logging_policy_witness :
    pointKeyRow "Multan" badTimePoint = none ∧
    ((extract_data (fun _ => none) true).logs =
      [⟨rawFilePath, "", "SUCCESS", ""⟩] ∧
     newRows [] "Multan" ([pointA] ++ badTimePoint :: [pointB]) =
      newRows [] "Multan" ([pointA] ++ [pointB]) ∧
     (transform_data "f" none emptyFS).logs =
      [⟨"f", "", "FAILED", readErrMsg⟩]) :=
  ⟨rfl, failure_logging_policy (fun _ => none) [] "Multan" [pointA] [pointB]
    badTimePoint emptyFS rfl⟩

/-! ### Claim C9: blank dedup columns never enter the key set -/

/-- Characterisation of the dedup key extracted from a persisted row. -/
theorem rowKeyIfTruthy_eq_some {r : Row} {d t : String} :
    rowKeyIfTruthy r = some (d, t) ↔
      r.date = some d ∧ r.time_ampm = some t ∧ d ≠ "" ∧ t ≠ "" := by
  unfold rowKeyIfTruthy
  cases hd : r.date with
  | none => simp
  | some d0 =>
    cases ht : r.time_ampm with
    | none => simp
    | some t0 =>
      dsimp only
      by_cases h0 : d0 ≠ "" ∧ t0 ≠ ""
      · rw [if_pos h0]
        constructor
        · intro h
          cases h
          exact ⟨rfl, rfl, h0.1, h0.2⟩
        · rintro ⟨hd', ht', _, _⟩
          cases hd'
          cases ht'
          rfl
      · rw [if_neg h0]
        constructor
        · intro h; cases h
        · rintro ⟨hd', ht', hd0, ht0⟩
          cases hd'
          cases ht'
          exact absurd ⟨hd0, ht0⟩ h0

/-- A row with a missing or empty dedup column yields no key. -/
theorem rowKeyIfTruthy_eq_none_of_blank {r : Row}
    (hblank : r.date = none ∨ r.date = some "" ∨
      r.time_ampm = none ∨ r.time_ampm = some "") :
    rowKeyIfTruthy r = none := by
  cases hk : rowKeyIfTruthy r with
  | none => rfl
  | some kv =>
    exfalso
    obtain ⟨d, t⟩ := kv
    rw [rowKeyIfTruthy_eq_some] at hk
    obtain ⟨hd, ht, hd0, ht0⟩ := hk
    rcases hblank with h | h | h | h
    · rw [hd] at h; cases h
    · rw [hd] at h; exact hd0 (Option.some.inj h)
    · rw [ht] at h; cases h
    · rw [ht] at h; exact ht0 (Option.some.inj h)

/-- **C9** (confirmed).  `load_existing_keys` adds only keys whose `date` and
`time_ampm` are both present and non-empty (Python truthiness): the key set is
exactly the truthy keys of the persisted rows; deleting a blank-keyed row
from the dataset does not change the key set; and a pair with an empty
component is never in the key set, so a blank-keyed row can never make the
dedup test skip a row — appends carrying its key would go through again. -/
theorem load_existing_keys_truthy (rows1 rows2 : List Row) (r : Row)
    (o : Option (List Row)) (d t : String)
    (hblank : r.date = none ∨ r.date = some "" ∨
      r.time_ampm = none ∨ r.time_ampm = some "")
    (hdt : d = "" ∨ t = "") :
    (∀ (rows : List Row) (d' t' : String),
      (d', t') ∈ load_existing_keys (some rows) ↔
        ∃ r' ∈ rows, r'.date = some d' ∧ r'.time_ampm = some t' ∧
          d' ≠ "" ∧ t' ≠ "") ∧
    load_existing_keys (some (rows1 ++ r :: rows2)) =
      load_existing_keys (some (rows1 ++ rows2)) ∧
    (d, t) ∉ load_existing_keys o := by
  have hchar : ∀ (rows : List Row) (d' t' : String),
      (d', t') ∈ load_existing_keys (some rows) ↔
        ∃ r' ∈ rows, r'.date = some d' ∧ r'.time_ampm = some t' ∧
          d' ≠ "" ∧ t' ≠ "" := by
    intro rows d' t'
    rw [mem_load_existing_keys]
    constructor
    · rintro ⟨r', hr', hk⟩
      rw [rowKeyIfTruthy_eq_some] at hk
      exact ⟨r', by simpa using hr', hk⟩
    · rintro ⟨r', hr', hk⟩
      exact ⟨r', by simpa using hr', rowKeyIfTruthy_eq_some.mpr hk⟩
  refine ⟨hchar, ?_, ?_⟩
  · have hnone := rowKeyIfTruthy_eq_none_of_blank hblank
    simp [load_existing_keys, List.filterMap_append, List.filterMap_cons,
      hnone]
  · intro hmem
    rw [mem_load_existing_keys] at hmem
    obtain ⟨r', _, hk⟩ := hmem
    rw [rowKeyIfTruthy_eq_some] at hk
    rcases hdt with h | h
    · exact hk.2.2.1 h
    · exact hk.2.2.2 h

/-- A persisted row whose `time_ampm` column is empty. -/
def blankRow : Row :=
  ⟨some "Lahore", some "2025-01-01", some "", none, none, none, none⟩

/-- Witness for C9: with a concrete dataset holding a blank-keyed row, the
blank row contributes nothing to the key set and its key is not in it. -/
theorem load_existing_keys_truthy_witness :
    load_existing_keys (some ([dupRowA] ++ blankRow :: [])) =
      load_existing_keys (some ([dupRowA] ++ [])) ∧
    ("2025-01-01", "") ∉ load_existing_keys (some [dupRowA, blankRow]) :=
  ⟨(load_existing_keys_truthy [dupRowA] [] blankRow
      (some [dupRowA, blankRow]) "2025-01-01" ""
      (Or.inr (Or.inr (Or.inr rfl))) (Or.inr rfl)).2.1,
   (load_existing_keys_truthy [dupRowA] [] blankRow
      (some [dupRowA, blankRow]) "2025-01-01" ""
      (Or.inr (Or.inr (Or.inr rfl))) (Or.inr rfl)).2.2⟩

/-! ### Claim C8: fail-fast upload loop -/

/-- An all-success upload loop uploads and logs every path, in order. -/
theorem uploadLoop_all_success (upload : String → Bool)
    (bucket pref ts : String) (paths : List String)
    (h : ∀ q ∈ paths, upload q = true) :
    uploadLoop upload bucket pref ts paths =
      (paths.map (fun q => s3Uri bucket (s3Key pref ts (baseName q))),
       paths.map (fun q => (⟨"", q, "SUCCESS", ""⟩ : LogEntry)), none) := by
  revert h
  induction paths with
  | nil => intro h; rfl
  | cons q qs ih =>
    intro h
    have hq : uploadOne upload bucket pref ts q =
        some (s3Uri bucket (s3Key pref ts (baseName q))) := by
      simp [uploadOne, h q (List.mem_cons_self q qs)]
    simp only [uploadLoop, hq, ih (fun q' hq' => h q' (List.mem_cons_of_mem q hq')),
      List.map_cons]

/-- **C8** (confirmed).  `upload_to_s3`'s loop uploads files one at a time in
list order.  The first file whose upload raises gets one FAILED audit row and
the exception is re-raised immediately: the files before it in the list have
been uploaded (and logged SUCCESS), and no file after it is attempted — it
appears in no upload and no log row of the invocation. -/
theorem upload_loop_fail_fast (upload : String → Bool)
    (bucket pref ts : String) (pre post : List String) (p : String)
    (hpre : ∀ q ∈ pre, upload q = true) (hp : upload p = false) :
    uploadLoop upload bucket pref ts (pre ++ p :: post) =
      (pre.map (fun q => s3Uri bucket (s3Key pref ts (baseName q))),
       pre.map (fun q => (⟨"", q, "SUCCESS", ""⟩ : LogEntry)) ++
         [⟨"", p, "FAILED", uploadFailMsg p⟩],
       some (uploadFailMsg p)) := by
  revert hpre
  induction pre with
  | nil =>
    intro _
    have h1 : uploadOne upload bucket pref ts p = none := by
      simp [uploadOne, hp]
    simp only [List.nil_append, uploadLoop, h1, List.map_nil]
  | cons q qs ih =>
    intro hpre
    have hq : uploadOne upload bucket pref ts q =
        some (s3Uri bucket (s3Key pref ts (baseName q))) := by
      simp [uploadOne, hpre q (List.mem_cons_self q qs)]
    simp only [List.cons_append, uploadLoop, hq, List.append_eq,
      ih (fun q' hq' => hpre q' (List.mem_cons_of_mem q hq')), List.map_cons]

/-- Witness for C8 at a concrete path list: `a.csv` uploads, `b.csv` fails
and is logged FAILED, `c.csv` is never attempted. -/
theorem upload_loop_fail_fast_witness :
    (∀ q ∈ ["a.csv"], (fun s => s == "a.csv") q = true) ∧
    (fun s => s == "a.csv") "b.csv" = false ∧
    uploadLoop (fun s => s == "a.csv") "bkt" "clean/" "TS"
        (["a.csv"] ++ "b.csv" :: ["c.csv"]) =
      (["s3://bkt/clean/TS_a.csv"],
       [⟨"", "a.csv", "SUCCESS", ""⟩,
        ⟨"", "b.csv", "FAILED", uploadFailMsg "b.csv"⟩],
       some (uploadFailMsg "b.csv")) :=
  ⟨by decide, rfl, by
    rw [upload_loop_fail_fast (fun s => s == "a.csv") "bkt" "clean/" "TS"
      ["a.csv"] ["c.csv"] "b.csv" (by decide) rfl]
    rfl⟩

/-! ### Claim C10: upload_to_s3 path handling -/

/-- **C10** (confirmed).  With valid configuration: an existing regular file
whose name does not end in `.csv` (case-insensitively) yields one FAILED
audit row and a `ValueError`, with no upload attempted; a directory is
scanned only at top level, uploading exactly the entries whose names end in
`.csv` (in listing order, joined under the directory); if no entry
qualifies, a FAILED row and a `FileNotFoundError`. -/
theorem upload_to_s3_path_handling (bucket cleanPath ts pref : String)
    (upload : String → Bool) (entries : List String)
    (hnotcsv : strEndsWith (strLower cleanPath) ".csv" = false)
    (hempty : entries.filter (fun n => strEndsWith (strLower n) ".csv") = [])
    (hallok : ∀ q, upload q = true) :
    (upload_to_s3 ⟨some bucket, pref, true⟩ upload ts cleanPath .file =
      ([], [⟨"", cleanPath, "FAILED", notCsvMsg cleanPath⟩],
       some ("ValueError: " ++ notCsvMsg cleanPath))) ∧
    (upload_to_s3 ⟨some bucket, pref, true⟩ upload ts cleanPath
        (.dir entries) =
      ([], [⟨"", cleanPath, "FAILED", noCsvMsg cleanPath⟩],
       some ("FileNotFoundError: " ++ noCsvMsg cleanPath))) ∧
    (∀ entries2 : List String,
      (upload_to_s3 ⟨some bucket, pref, true⟩ upload ts cleanPath
          (.dir entries2)).1 =
        (entries2.filter (fun n => strEndsWith (strLower n) ".csv")).map
          (fun n =>
            s3Uri bucket (s3Key pref ts (baseName (cleanPath ++ "/" ++ n))))) := by
  refine ⟨?_, ?_, ?_⟩
  · simp only [upload_to_s3]
    rw [if_neg (by simp), if_neg (by simp [hnotcsv])]
  · simp only [upload_to_s3]
    rw [if_neg (by simp), if_pos (by simp [hempty])]
  · intro entries2
    simp only [upload_to_s3]
    rw [if_neg (by simp)]
    by_cases hfil :
        (entries2.filter (fun n => strEndsWith (strLower n) ".csv")) = []
    · rw [if_pos (by simp [hfil]), hfil]
      rfl
    · rw [if_neg (by simp [hfil])]
      rw [uploadLoop_all_success upload bucket pref ts _
        (fun q _ => hallok q)]
      simp [List.map_map, Function.comp]

/-- Witness for C10: a `.txt` file is rejected without upload; in a mixed
directory exactly the two CSV entries (one upper-case) are uploaded. -/
theorem upload_to_s3_path_handling_witness :
    upload_to_s3 ⟨some "bkt", "clean/", true⟩ (fun _ => true) "TS"
        "data/clean/readme.txt" .file =
      ([], [⟨"", "data/clean/readme.txt", "FAILED",
        notCsvMsg "data/clean/readme.txt"⟩],
       some ("ValueError: " ++ notCsvMsg "data/clean/readme.txt")) ∧
    (upload_to_s3 ⟨some "bkt", "clean/", true⟩ (fun _ => true) "TS"
        "data/clean" (.dir ["x.csv", "y.txt", "Z.CSV"])).1 =
      ["s3://bkt/clean/TS_x.csv", "s3://bkt/clean/TS_Z.CSV"] :=
  ⟨(upload_to_s3_path_handling "bkt" "data/clean/readme.txt" "TS" "clean/"
      (fun _ => true) [] rfl rfl (fun _ => rfl)).1,
   by
    rw [(upload_to_s3_path_handling "bkt" "data/clean" "TS" "clean/"
      (fun _ => true) [] rfl rfl (fun _ => rfl)).2.2
      ["x.csv", "y.txt", "Z.CSV"]]
    rfl⟩

end ETL
